import Mathlib

/-!
Shallow embedding of the `deepinfra-client-rs` library (sources:
`src/client.rs`, `src/chat_completition.rs`, `src/audio_transcription.rs`)
for checking its natural-language specification.

JSON values are modelled by the inductive `Deepinfra.Json`; Rust `f64`/`f32`
numeric fields are modelled by `Rat` (no claim exercises float rounding),
`u32`/`u64` by `Nat`, byte buffers by `List Nat`.  Serde derive semantics are
embedded faithfully: a plain `#[derive(Serialize)]` struct serializes every
field in declaration order, with `Option::None` emitted as JSON `null`
(there is no `skip_serializing_if` attribute anywhere in the sources);
`#[serde(untagged)]` enums deserialize by trying each variant in declaration
order, first structural match wins; struct deserialization ignores unknown
keys and treats a missing `Option` field as `None`.
The effectful operation `audio_transcription` is embedded as a function of an
explicit filesystem oracle (`String → Option (List Nat)`: `none` means the
path does not exist) and a network oracle (`Form → Option Json`: `none` means
a transport failure); the HTTP side effects it performs are returned as an
explicit event trace.
-/

namespace Deepinfra

/-- JSON values (the model of `serde_json::Value` bodies exchanged on the wire). -/
inductive Json where
  | null
  | bool (b : Bool)
  | num (q : Rat)
  | str (s : String)
  | arr (elems : List Json)
  | obj (fields : List (String × Json))

/-- Key lookup in a JSON object's field list (first binding wins). -/
def lookupField : List (String × Json) → String → Option Json
  | [], _ => none
  | (k, v) :: rest, key => if k = key then some v else lookupField rest key

/-- `Json.obj` membership test for a key, used to state claims about serialized bodies. -/
def jsonHasKey (j : Json) (key : String) : Bool :=
  match j with
  | Json.obj fields => (lookupField fields key).isSome
  | _ => false

/-- Field lookup on a serialized `Json.obj` body (`none` when not an object or key absent). -/
def jsonGetKey (j : Json) (key : String) : Option Json :=
  match j with
  | Json.obj fields => lookupField fields key
  | _ => none

/-! ### `src/audio_transcription.rs`: data model -/

/-- `AudioTranscriptionResponse` (line 12): the success payload, a single `text` field. -/
structure AudioTranscriptionResponse where
  text : String
deriving DecidableEq

/-- `ErrorDetail` (lines 16-22): one field-level validation error; the Rust field
`error_type` is serialized/deserialized under the JSON key `type`. -/
structure ErrorDetail where
  loc : List String
  msg : String
  error_type : String
deriving DecidableEq

/-- `ErrorResponse` (lines 24-29): `#[serde(untagged)]`, `Simple` tried before `Detailed`. -/
inductive ErrorResponse where
  | Simple (detail : String)
  | Detailed (detail : List ErrorDetail)
deriving DecidableEq

/-- `AudioTranscriptionApiResponse` (lines 31-36): `#[serde(untagged)]`,
`TranscriptionResponse` tried before `ErrorResponse`. -/
inductive AudioTranscriptionApiResponse where
  | TranscriptionResponse (response : AudioTranscriptionResponse)
  | ErrorResponse (error : ErrorResponse)
deriving DecidableEq

/-- `AudioTranscriptionError` (lines 38-48).  The wrapped `reqwest::Error` and
`std::io::Error` payloads are modelled as message strings. -/
inductive AudioTranscriptionError where
  | ReqwestError (message : String)
  | FileNotFoundError (path : String)
  | IoError (message : String)
  | ErrorResponse (message : String)
deriving DecidableEq

/-- `FileSource` (lines 50-54): the audio source, a closed two-variant choice. -/
inductive FileSource where
  | Filepath (path : String)
  | Bytes (buffer : List Nat) (file_name : String)
deriving DecidableEq

/-- `AudioTranscriptionRequest` (lines 67-89), fields in declaration order. -/
structure AudioTranscriptionRequest where
  language : Option String
  model : String
  prompt : Option String
  response_format : String
  source : FileSource
  temperature : Option Rat
  timestamp_granularities : Option (List String)

/-! ### `src/audio_transcription.rs`: response decoding (serde untagged semantics) -/

/-- Deserialize `AudioTranscriptionResponse`: an object whose `text` key holds a
string (unknown keys ignored, per serde derive defaults). -/
def decodeTranscriptionResponse : Json → Option AudioTranscriptionResponse
  | Json.obj fields =>
    match lookupField fields "text" with
    | some (Json.str text) => some { text := text }
    | _ => none
  | _ => none

/-- Deserialize a JSON string. -/
def decodeString : Json → Option String
  | Json.str s => some s
  | _ => none

/-- Serde sequence deserialization: decode every element in order; the first
failing element fails the whole sequence. -/
def decodeEach (f : α → Option β) : List α → Option (List β)
  | [] => some []
  | a :: rest =>
    match f a, decodeEach f rest with
    | some b, some bs => some (b :: bs)
    | _, _ => none

/-- Deserialize `Vec<String>`: an array whose every element is a string. -/
def decodeStringList : Json → Option (List String)
  | Json.arr elems => decodeEach decodeString elems
  | _ => none

/-- Deserialize `ErrorDetail`: requires `loc` (array of strings), `msg` (string)
and `type` (string); unknown keys ignored. -/
def decodeErrorDetail : Json → Option ErrorDetail
  | Json.obj fields =>
    match lookupField fields "loc", lookupField fields "msg", lookupField fields "type" with
    | some locJson, some (Json.str msg), some (Json.str error_type) =>
      (decodeStringList locJson).map fun loc => { loc := loc, msg := msg, error_type := error_type }
    | _, _, _ => none
  | _ => none

/-- First untagged attempt for `ErrorResponse`: the `Simple` variant
(`detail` is a string). -/
def decodeSimpleError : Json → Option ErrorResponse
  | Json.obj fields =>
    match lookupField fields "detail" with
    | some (Json.str detail) => some (ErrorResponse.Simple detail)
    | _ => none
  | _ => none

/-- Second untagged attempt for `ErrorResponse`: the `Detailed` variant
(`detail` is an array, every element an `ErrorDetail`). -/
def decodeDetailedError : Json → Option ErrorResponse
  | Json.obj fields =>
    match lookupField fields "detail" with
    | some (Json.arr elems) => (decodeEach decodeErrorDetail elems).map ErrorResponse.Detailed
    | _ => none
  | _ => none

/-- `#[serde(untagged)]` deserialization of `ErrorResponse`: `Simple` first,
then `Detailed` (declaration order of the Rust enum). -/
def decodeErrorResponse (j : Json) : Option ErrorResponse :=
  (decodeSimpleError j).orElse fun _ => decodeDetailedError j

/-- `#[serde(untagged)]` deserialization of `AudioTranscriptionApiResponse`:
`TranscriptionResponse` first, then `ErrorResponse` (declaration order). -/
def decodeApiResponse (j : Json) : Option AudioTranscriptionApiResponse :=
  ((decodeTranscriptionResponse j).map AudioTranscriptionApiResponse.TranscriptionResponse).orElse
    fun _ => (decodeErrorResponse j).map AudioTranscriptionApiResponse.ErrorResponse

/-- The `match response` at `src/audio_transcription.rs:158-174`, mapping the
decoded API response to the function's result: `format!` of each detailed entry
becomes `loc` joined by `"."`, then `": "`, then `msg`; entries joined by `", "`. -/
def handleApiResponse : AudioTranscriptionApiResponse →
    Except AudioTranscriptionError AudioTranscriptionResponse
  | AudioTranscriptionApiResponse.TranscriptionResponse response => Except.ok response
  | AudioTranscriptionApiResponse.ErrorResponse error =>
    match error with
    | ErrorResponse.Simple detail => Except.error (AudioTranscriptionError.ErrorResponse detail)
    | ErrorResponse.Detailed detail =>
      let error_details : List String :=
        detail.map fun d => String.intercalate "." d.loc ++ ": " ++ d.msg
      Except.error (AudioTranscriptionError.ErrorResponse (String.intercalate ", " error_details))

/-- `.json::<AudioTranscriptionApiResponse>()` followed by the result match:
a body that fits none of the three shapes is a `reqwest` decode error (the `?`
at line 156); otherwise the first matching shape determines the outcome. -/
def processBody (body : Json) : Except AudioTranscriptionError AudioTranscriptionResponse :=
  match decodeApiResponse body with
  | none => Except.error (AudioTranscriptionError.ReqwestError "error decoding response body")
  | some response => handleApiResponse response

/-! ### `src/audio_transcription.rs`: multipart form construction and the operation -/

/-- One multipart part: a text field (`Form::text`) or a file part with a file
name and byte contents (`Form::file` / `Part::bytes(..).file_name(..)`). -/
inductive FormPart where
  | text (value : String)
  | filePart (file_name : String) (bytes : List Nat)
deriving DecidableEq

/-- A multipart form: named parts in the order they were appended. -/
abbrev Form := List (String × FormPart)

/-- `AUDIO_TRANSCRIPTION_API_URL` (line 8). -/
def AUDIO_TRANSCRIPTION_API_URL : String :=
  "https://api.deepinfra.com/v1/openai/audio/transcriptions"

/-- `Path::file_name` as used by `reqwest`'s `Form::file`: the final component
of the path. -/
def pathFileName (path : String) : String :=
  (path.splitOn "/").getLast!

/-- `temperature.to_string()`: stringification of the (rational-modelled) `f32`. -/
def temperatureToString (q : Rat) : String := toString q

/-- The optional-field appends at `src/audio_transcription.rs:134-147`:
`language`, `prompt`, `temperature` (stringified) when present, then one
repeated `timestamp_granularities[]` text field per list element, in order. -/
def appendOptions (request : AudioTranscriptionRequest) (form : Form) : Form :=
  let form := match request.language with
    | some language => form ++ [("language", FormPart.text language)]
    | none => form
  let form := match request.prompt with
    | some prompt => form ++ [("prompt", FormPart.text prompt)]
    | none => form
  let form := match request.temperature with
    | some temperature => form ++ [("temperature", FormPart.text (temperatureToString temperature))]
    | none => form
  match request.timestamp_granularities with
  | some timestamp_granularities =>
    timestamp_granularities.foldl
      (fun form granularity => form ++ [("timestamp_granularities[]", FormPart.text granularity)])
      form
  | none => form

/-- Form construction (`src/audio_transcription.rs:112-147`): the `model` and
`response_format` text fields, then the `file` part — for a `Filepath` source
the local existence check comes first and a missing file aborts with
`FileNotFoundError` before anything else happens — then the optional fields.
`fs` is the filesystem oracle: `fs p = none` means path `p` does not exist,
`fs p = some bytes` means it exists with contents `bytes`. -/
def buildForm (fs : String → Option (List Nat)) (request : AudioTranscriptionRequest) :
    Except AudioTranscriptionError Form :=
  match request.source with
  | FileSource.Filepath file_path =>
    match fs file_path with
    | none => Except.error (AudioTranscriptionError.FileNotFoundError file_path)
    | some bytes =>
      Except.ok (appendOptions request
        ([("model", FormPart.text request.model),
          ("response_format", FormPart.text request.response_format)]
          ++ [("file", FormPart.filePart (pathFileName file_path) bytes)]))
  | FileSource.Bytes buffer file_name =>
    Except.ok (appendOptions request
      ([("model", FormPart.text request.model),
        ("response_format", FormPart.text request.response_format)]
        ++ [("file", FormPart.filePart file_name buffer)]))

/-- An observable HTTP side effect of the operation. -/
inductive HttpEvent where
  | post (url : String) (form : Form)
deriving DecidableEq

/-- `audio_transcription` (`src/audio_transcription.rs:108-175`) as a function
of the filesystem oracle and the network oracle `respond` (`none` models a
transport failure of `.send()`, surfaced as `ReqwestError` by the `?`).
Returns the result together with the trace of HTTP posts performed; the early
`FileNotFoundError` return performs none. -/
def audioTranscriptionRun (fs : String → Option (List Nat)) (respond : Form → Option Json)
    (request : AudioTranscriptionRequest) :
    Except AudioTranscriptionError AudioTranscriptionResponse × List HttpEvent :=
  match buildForm fs request with
  | Except.error e => (Except.error e, [])
  | Except.ok form =>
    match respond form with
    | none => (Except.error (AudioTranscriptionError.ReqwestError "error sending request"),
               [HttpEvent.post AUDIO_TRANSCRIPTION_API_URL form])
    | some body => (processBody body, [HttpEvent.post AUDIO_TRANSCRIPTION_API_URL form])

/-- `true` exactly on the `FileNotFoundError` result variant. -/
def resultIsFileNotFound :
    Except AudioTranscriptionError AudioTranscriptionResponse → Bool
  | Except.error (AudioTranscriptionError.FileNotFoundError _) => true
  | _ => false

/-- The parts of a form carrying a given field name, in form order. -/
def fieldsNamed (form : Form) (key : String) : Form :=
  form.filter fun p => p.1 == key

/-! ### `src/client.rs`: client construction -/

/-- `APP_USER_AGENT` (line 8): the crate name and version baked in at build time. -/
def APP_USER_AGENT : String := "deepinfra-client-rs/0.1.0"

/-- `DeepinfraClient` (lines 13-17): the handle's observable configuration —
its default header map and user agent. -/
structure DeepinfraClient where
  default_headers : List (String × String)
  user_agent : String
deriving DecidableEq

/-- `DeepinfraClientBuilderError` (lines 20-28); wrapped foreign error payloads
are modelled as the offending strings. -/
inductive DeepinfraClientBuilderError where
  | ReqwestError (message : String)
  | InvalidHeaderValue (value : String)
deriving DecidableEq

/-- Modelled from the spec: legality of one character of an HTTP header value
(the validation behind `HeaderValue::from_str`, which is in the `http` crate,
not in this repository).  Per the spec, construction "fails with
`InvalidHeaderValue` if the token contains characters illegal in an HTTP
header value (e.g., control characters)": horizontal tab is legal, every
other control character (code below 32) and DEL (127) are illegal, and all
remaining characters are legal. -/
def isLegalHeaderChar (c : Char) : Bool :=
  c.toNat == 9 || (32 ≤ c.toNat && c.toNat ≠ 127)

/-- Modelled from the spec: `HeaderValue::from_str`, accepting exactly the
strings all of whose characters are legal header-value characters. -/
def headerValueFromStr (s : String) : Except String String :=
  if s.toList.all isLegalHeaderChar then Except.ok s else Except.error s

/-- `DeepinfraClient::new` (lines 47-61): formats `"Bearer {token}"`, inserts
it under `Authorization`, and builds the client with those default headers and
the fixed user agent.  The `?` on `HeaderValue::from_str` surfaces as
`InvalidHeaderValue`; the transport build itself is modelled as succeeding
(its failure is environment-defined, not input-dependent). -/
def DeepinfraClient.new (token : String) : Except DeepinfraClientBuilderError DeepinfraClient :=
  match headerValueFromStr ("Bearer " ++ token) with
  | Except.error value => Except.error (DeepinfraClientBuilderError.InvalidHeaderValue value)
  | Except.ok value =>
    Except.ok { default_headers := [("Authorization", value)], user_agent := APP_USER_AGENT }

/-- A control character or DEL: the spec's example class of characters illegal
in an HTTP header value (tab, the one legal control character, excepted). -/
def isIllegalHeaderChar (c : Char) : Bool :=
  (c.toNat < 32 && c.toNat ≠ 9) || c.toNat == 127

/-! ### `src/chat_completition.rs`: data model -/

/-- `SystemMessage` (lines 9-15). -/
structure SystemMessage where
  content : String
  name : Option String
deriving DecidableEq

/-- `UserMessage` (lines 17-23). -/
structure UserMessage where
  content : String
  name : Option String
deriving DecidableEq

/-- `FunctionCall` (lines 198-206). -/
structure FunctionCall where
  name : String
  arguments : String
deriving DecidableEq

/-- `ToolCall` (lines 184-195); the Rust field `type_` uses the JSON key `type`. -/
structure ToolCall where
  id : String
  type_ : String
  function : FunctionCall
deriving DecidableEq

/-- `AssistantMessage` (lines 25-31). -/
structure AssistantMessage where
  content : String
  name : Option String
  tool_calls : Option (List ToolCall)
deriving DecidableEq

/-- `ToolMessage` (lines 33-38). -/
structure ToolMessage where
  content : String
  tool_call_id : String
deriving DecidableEq

/-- `Message` (lines 40-47): internally tagged (`tag = "role"`), snake_case
variant names as the tag values. -/
inductive Message where
  | System (m : SystemMessage)
  | User (m : UserMessage)
  | Assistant (m : AssistantMessage)
  | Tool (m : ToolMessage)
deriving DecidableEq

/-- `ResponseFormatType` (lines 164-169): snake_case serialization. -/
inductive ResponseFormatType where
  | Text
  | JsonObject
deriving DecidableEq

/-- `ResponseFormat` (lines 172-177); field `response_type` uses the JSON key `type`. -/
structure ResponseFormat where
  response_type : ResponseFormatType
deriving DecidableEq

/-- `FunctionDefinition` (lines 152-162); `parameters` is a raw JSON value. -/
structure FunctionDefinition where
  name : String
  description : String
  parameters : Json

/-- `ChatTool` (lines 137-145); the Rust field `type_` uses the JSON key `type`. -/
structure ChatTool where
  type_ : String
  function : FunctionDefinition

/-- `ChatCompletionRequest` (lines 51-133), fields in declaration order.
`f64` fields are modelled by `Rat`, `u32`/`u64` by `Nat`. -/
structure ChatCompletionRequest where
  frequency_penalty : Rat
  max_tokens : Nat
  messages : List Message
  min_p : Rat
  model : String
  n : Nat
  presence_penalty : Rat
  repetition_penalty : Rat
  response_format : Option ResponseFormat
  seed : Option Nat
  stop : Option (List String)
  stream : Bool
  temperature : Rat
  tool_choice : Option String
  tools : Option (List ChatTool)
  top_k : Nat
  top_p : Rat
  user : Option String

/-! ### `src/chat_completition.rs`: serde serialization (derive semantics) -/

/-- Serde serialization of an `Option` field without `skip_serializing_if`:
`None` is emitted as JSON `null`, `Some x` as the serialization of `x`. -/
def optJson (f : α → Json) : Option α → Json
  | none => Json.null
  | some x => f x

/-- Serialize `FunctionCall`. -/
def functionCallToJson (f : FunctionCall) : Json :=
  Json.obj [("name", Json.str f.name), ("arguments", Json.str f.arguments)]

/-- Serialize `ToolCall` (`type_` renamed to `type`). -/
def toolCallToJson (t : ToolCall) : Json :=
  Json.obj [("id", Json.str t.id), ("type", Json.str t.type_),
            ("function", functionCallToJson t.function)]

/-- Serialize `Message`: internally tagged with `role`, snake_case tag values,
then the variant struct's fields in declaration order. -/
def messageToJson : Message → Json
  | Message.System m =>
    Json.obj [("role", Json.str "system"), ("content", Json.str m.content),
              ("name", optJson Json.str m.name)]
  | Message.User m =>
    Json.obj [("role", Json.str "user"), ("content", Json.str m.content),
              ("name", optJson Json.str m.name)]
  | Message.Assistant m =>
    Json.obj [("role", Json.str "assistant"), ("content", Json.str m.content),
              ("name", optJson Json.str m.name),
              ("tool_calls", optJson (fun ts => Json.arr (ts.map toolCallToJson)) m.tool_calls)]
  | Message.Tool m =>
    Json.obj [("role", Json.str "tool"), ("content", Json.str m.content),
              ("tool_call_id", Json.str m.tool_call_id)]

/-- Serialize `ResponseFormatType` (snake_case). -/
def responseFormatTypeToJson : ResponseFormatType → Json
  | ResponseFormatType.Text => Json.str "text"
  | ResponseFormatType.JsonObject => Json.str "json_object"

/-- Serialize `ResponseFormat` (`response_type` renamed to `type`). -/
def responseFormatToJson (rf : ResponseFormat) : Json :=
  Json.obj [("type", responseFormatTypeToJson rf.response_type)]

/-- Serialize `FunctionDefinition`. -/
def functionDefinitionToJson (f : FunctionDefinition) : Json :=
  Json.obj [("name", Json.str f.name), ("description", Json.str f.description),
            ("parameters", f.parameters)]

/-- Serialize `ChatTool` (`type_` renamed to `type`). -/
def chatToolToJson (t : ChatTool) : Json :=
  Json.obj [("type", Json.str t.type_), ("function", functionDefinitionToJson t.function)]

/-- Serde serialization of `ChatCompletionRequest` (the `.json(&body)` body at
`src/chat_completition.rs:260`): every field in declaration order; the six
`Option` fields have no `skip_serializing_if` attribute, so `None` is emitted
as `null`. -/
def serializeChatCompletionRequest (r : ChatCompletionRequest) : Json :=
  Json.obj
    [("frequency_penalty", Json.num r.frequency_penalty),
     ("max_tokens", Json.num r.max_tokens),
     ("messages", Json.arr (r.messages.map messageToJson)),
     ("min_p", Json.num r.min_p),
     ("model", Json.str r.model),
     ("n", Json.num r.n),
     ("presence_penalty", Json.num r.presence_penalty),
     ("repetition_penalty", Json.num r.repetition_penalty),
     ("response_format", optJson responseFormatToJson r.response_format),
     ("seed", optJson (fun s => Json.num s) r.seed),
     ("stop", optJson (fun l => Json.arr (l.map Json.str)) r.stop),
     ("stream", Json.bool r.stream),
     ("temperature", Json.num r.temperature),
     ("tool_choice", optJson Json.str r.tool_choice),
     ("tools", optJson (fun ts => Json.arr (ts.map chatToolToJson)) r.tools),
     ("top_k", Json.num r.top_k),
     ("top_p", Json.num r.top_p),
     ("user", optJson Json.str r.user)]

/-! ### `src/chat_completition.rs`: serde deserialization of `Message` -/

/-- Serde deserialization of an `Option<String>` struct field: a missing key
or `null` is `None`, a string is `Some`, anything else is an error. -/
def decodeOptStringField (fields : List (String × Json)) (key : String) :
    Option (Option String) :=
  match lookupField fields key with
  | none => some none
  | some Json.null => some none
  | some (Json.str s) => some (some s)
  | some _ => none

/-- Deserialize `FunctionCall`. -/
def decodeFunctionCall : Json → Option FunctionCall
  | Json.obj fields =>
    match lookupField fields "name", lookupField fields "arguments" with
    | some (Json.str name), some (Json.str arguments) =>
      some { name := name, arguments := arguments }
    | _, _ => none
  | _ => none

/-- Deserialize `ToolCall` (`type` key into `type_`). -/
def decodeToolCall : Json → Option ToolCall
  | Json.obj fields =>
    match lookupField fields "id", lookupField fields "type", lookupField fields "function" with
    | some (Json.str id), some (Json.str type_), some functionJson =>
      (decodeFunctionCall functionJson).map fun f => { id := id, type_ := type_, function := f }
    | _, _, _ => none
  | _ => none

/-- Serde deserialization of the `Option<Vec<ToolCall>>` field: missing key or
`null` is `None`, an array of tool calls is `Some`, anything else an error. -/
def decodeOptToolCallsField (fields : List (String × Json)) :
    Option (Option (List ToolCall)) :=
  match lookupField fields "tool_calls" with
  | none => some none
  | some Json.null => some none
  | some (Json.arr elems) => (decodeEach decodeToolCall elems).map some
  | some _ => none

/-- Deserialize `Message`: read the `role` tag, then the tagged variant's
struct with its required and optional fields (unknown keys, including the
already-consumed tag, are ignored). -/
def messageFromJson : Json → Option Message
  | Json.obj fields =>
    match lookupField fields "role" with
    | some (Json.str role) =>
      if role = "system" then
        match lookupField fields "content", decodeOptStringField fields "name" with
        | some (Json.str content), some name => some (Message.System { content := content, name := name })
        | _, _ => none
      else if role = "user" then
        match lookupField fields "content", decodeOptStringField fields "name" with
        | some (Json.str content), some name => some (Message.User { content := content, name := name })
        | _, _ => none
      else if role = "assistant" then
        match lookupField fields "content", decodeOptStringField fields "name",
              decodeOptToolCallsField fields with
        | some (Json.str content), some name, some tool_calls =>
          some (Message.Assistant { content := content, name := name, tool_calls := tool_calls })
        | _, _, _ => none
      else if role = "tool" then
        match lookupField fields "content", lookupField fields "tool_call_id" with
        | some (Json.str content), some (Json.str tool_call_id) =>
          some (Message.Tool { content := content, tool_call_id := tool_call_id })
        | _, _ => none
      else none
    | _ => none
  | _ => none

/-- Deserialize a `Vec<Message>`, e.g. the `messages` list of an echoed
response body. -/
def messagesFromJson : Json → Option (List Message)
  | Json.arr elems => decodeEach messageFromJson elems
  | _ => none

/-! ### Concrete example values (used by witnesses and counterexamples) -/

/-- A `ChatCompletionRequest` exactly as the builder's defaults produce it
(`#[builder(default = ...)]` values from `src/chat_completition.rs:51-133`),
with one system and one user message and every optional field unset. -/
def exampleChatRequest : ChatCompletionRequest where
  frequency_penalty := 0
  max_tokens := 100000
  messages :=
    [Message.System { content := "You are helpful.", name := none },
     Message.User { content := "Hello", name := none }]
  min_p := 0
  model := "deepseek-ai/DeepSeek-V3"
  n := 1
  presence_penalty := 0
  repetition_penalty := 1
  response_format := none
  seed := none
  stop := none
  stream := false
  temperature := 1
  tool_choice := none
  tools := none
  top_k := 0
  top_p := 1
  user := none

/-- An `AudioTranscriptionRequest` with a file-path source and the builder's
default `model` and `response_format`. -/
def examplePathRequest : AudioTranscriptionRequest where
  language := none
  model := "openai/whisper-large-v3-turbo"
  prompt := none
  response_format := "json"
  source := FileSource.Filepath "/tmp/missing.mp3"
  temperature := none
  timestamp_granularities := some ["word", "segment"]

/-- An `AudioTranscriptionRequest` with an in-memory byte-buffer source. -/
def exampleBytesRequest : AudioTranscriptionRequest where
  language := some "en"
  model := "openai/whisper-large-v3-turbo"
  prompt := none
  response_format := "json"
  source := FileSource.Bytes [1, 2, 3] "clip.mp3"
  temperature := none
  timestamp_granularities := none

/-- A filesystem oracle on which no path exists. -/
def emptyFs : String → Option (List Nat) := fun _ => none

/-- A network oracle answering every post with the simple-error body. -/
def simpleErrorNet : Form → Option Json :=
  fun _ => some (Json.obj [("detail", Json.str "bad request")])

/-- The detailed-error entry of the spec's worked example. -/
def exampleDetail : ErrorDetail where
  loc := ["body", "language"]
  msg := "invalid"
  error_type := "value_error"

/-- The spec's worked detailed-error body. -/
def exampleDetailedBody : Json :=
  Json.obj [("detail", Json.arr
    [Json.obj [("loc", Json.arr [Json.str "body", Json.str "language"]),
               ("msg", Json.str "invalid"),
               ("type", Json.str "value_error")]])]

/-- The JSON rendering of one detailed-error entry, for stating claims about
whole detailed-error payloads. -/
def errorDetailToJson (d : ErrorDetail) : Json :=
  Json.obj [("loc", Json.arr (d.loc.map Json.str)),
            ("msg", Json.str d.msg),
            ("type", Json.str d.error_type)]

/-- A whole detailed-error payload: `detail` maps to the list of entries. -/
def detailedErrorBody (detail : List ErrorDetail) : Json :=
  Json.obj [("detail", Json.arr (detail.map errorDetailToJson))]

/-- The success-record shape test of the spec: the body has a `text` field
holding a string. -/
def textFieldMatches (fields : List (String × Json)) : Bool :=
  match lookupField fields "text" with
  | some (Json.str _) => true
  | _ => false

/-- The optional multipart fields appended after the file part, as one list:
`language`, `prompt`, `temperature` (stringified) when present, then the
repeated `timestamp_granularities[]` fields in list order. -/
def optionsList (request : AudioTranscriptionRequest) : Form :=
  (request.language.map fun l => ("language", FormPart.text l)).toList
    ++ (request.prompt.map fun p => ("prompt", FormPart.text p)).toList
    ++ (request.temperature.map fun t =>
          ("temperature", FormPart.text (temperatureToString t))).toList
    ++ (request.timestamp_granularities.getD []).map
          fun g => ("timestamp_granularities[]", FormPart.text g)

/-- The multipart form `buildForm` produces for `exampleBytesRequest`. -/
def exampleBytesForm : Form :=
  [("model", FormPart.text "openai/whisper-large-v3-turbo"),
   ("response_format", FormPart.text "json"),
   ("file", FormPart.filePart "clip.mp3" [1, 2, 3]),
   ("language", FormPart.text "en")]

/-- A byte-buffer request asking for word and segment timestamp granularities. -/
def exampleGranRequest : AudioTranscriptionRequest where
  language := none
  model := "m"
  prompt := none
  response_format := "json"
  source := FileSource.Bytes [] "a.mp3"
  temperature := none
  timestamp_granularities := some ["word", "segment"]

/-- The multipart form `buildForm` produces for `exampleGranRequest`. -/
def exampleGranForm : Form :=
  [("model", FormPart.text "m"),
   ("response_format", FormPart.text "json"),
   ("file", FormPart.filePart "a.mp3" []),
   ("timestamp_granularities[]", FormPart.text "word"),
   ("timestamp_granularities[]", FormPart.text "segment")]

/-! ### Helper lemmas -/

/-- A list of strings serialized elementwise decodes back to itself. -/
theorem decodeStringList_strs (l : List String) :
    decodeStringList (Json.arr (l.map Json.str)) = some l := by
  show decodeEach decodeString (l.map Json.str) = some l
  induction l with
  | nil => rfl
  | cons s rest ih => simp only [List.map_cons, decodeEach, decodeString, ih]

/-- One detailed-error entry decodes back from its JSON rendering. -/
theorem decodeErrorDetail_roundtrip (d : ErrorDetail) :
    decodeErrorDetail (errorDetailToJson d) = some d := by
  obtain ⟨loc, msg, error_type⟩ := d
  have h : decodeErrorDetail (errorDetailToJson ⟨loc, msg, error_type⟩) =
      (decodeStringList (Json.arr (loc.map Json.str))).map
        fun loc => ⟨loc, msg, error_type⟩ := rfl
  rw [h, decodeStringList_strs]
  rfl

/-- A list of detailed-error entries decodes back from its JSON rendering. -/
theorem decodeEach_errorDetails (l : List ErrorDetail) :
    decodeEach decodeErrorDetail (l.map errorDetailToJson) = some l := by
  induction l with
  | nil => rfl
  | cons d rest ih => simp only [List.map_cons, decodeEach, decodeErrorDetail_roundtrip, ih]

/-- A detailed-error payload decodes to the `Detailed` variant. -/
theorem decode_detailedErrorBody (l : List ErrorDetail) :
    decodeApiResponse (detailedErrorBody l) =
      some (AudioTranscriptionApiResponse.ErrorResponse (ErrorResponse.Detailed l)) := by
  have h : decodeApiResponse (detailedErrorBody l) =
      ((decodeEach decodeErrorDetail (l.map errorDetailToJson)).map ErrorResponse.Detailed).map
        AudioTranscriptionApiResponse.ErrorResponse := rfl
  rw [h, decodeEach_errorDetails]
  rfl

/-- A body whose `text` field is not a string (or absent) fails the
success-record decode. -/
theorem decodeTranscription_eq_none {fields : List (String × Json)}
    (h : textFieldMatches fields = false) :
    decodeTranscriptionResponse (Json.obj fields) = none := by
  unfold textFieldMatches at h
  show (match lookupField fields "text" with
        | some (Json.str text) => some ({ text := text } : AudioTranscriptionResponse)
        | _ => none) = none
  cases hl : lookupField fields "text" with
  | none => rfl
  | some v =>
    rw [hl] at h
    cases v <;> simp_all

/-! ### C10 -/

/-- C10: for the response body with an empty detailed-error list,
`audio_transcription` fails with an `ErrorResponse` whose message is the empty
string (the empty join), not a success and not a transport/decode error. -/
theorem claim_C10 :
    processBody (Json.obj [("detail", Json.arr [])]) =
      Except.error (AudioTranscriptionError.ErrorResponse "") := rfl

/-! ### C4 -/

/-- C4: every detailed error payload fails with an `ErrorResponse` message
rendering each entry as its `loc` elements joined by `"."`, then `": "`, then
its `msg`, entries joined by `", "` in list order; in particular the worked
single-entry example yields exactly `"body.language: invalid"`. -/
theorem claim_C4 (detail : List ErrorDetail) :
    processBody (detailedErrorBody detail) =
      Except.error (AudioTranscriptionError.ErrorResponse
        (String.intercalate ", "
          (detail.map fun d => String.intercalate "." d.loc ++ ": " ++ d.msg))) ∧
    processBody exampleDetailedBody =
      Except.error (AudioTranscriptionError.ErrorResponse "body.language: invalid") := by
  constructor
  · unfold processBody
    rw [decode_detailedErrorBody]
    rfl
  · rfl

/-! ### C8 -/

/-- C8: two detailed error payloads agreeing on every entry's `loc` and `msg`
but differing arbitrarily in the entries' `type` fields produce the same
`ErrorResponse` message. -/
theorem claim_C8 (d1 d2 : List ErrorDetail)
    (h : d1.map (fun d => (d.loc, d.msg)) = d2.map fun d => (d.loc, d.msg)) :
    processBody (detailedErrorBody d1) = processBody (detailedErrorBody d2) := by
  unfold processBody
  rw [decode_detailedErrorBody, decode_detailedErrorBody]
  have hrender : ∀ l : List ErrorDetail,
      l.map (fun d => String.intercalate "." d.loc ++ ": " ++ d.msg) =
        (l.map fun d => (d.loc, d.msg)).map
          fun p => String.intercalate "." p.1 ++ ": " ++ p.2 := by
    intro l
    rw [List.map_map]
    rfl
  have happ : ∀ l : List ErrorDetail,
      handleApiResponse
          (AudioTranscriptionApiResponse.ErrorResponse (ErrorResponse.Detailed l)) =
        Except.error (AudioTranscriptionError.ErrorResponse (String.intercalate ", "
          (l.map fun d => String.intercalate "." d.loc ++ ": " ++ d.msg))) :=
    fun _ => rfl
  show handleApiResponse (AudioTranscriptionApiResponse.ErrorResponse (ErrorResponse.Detailed d1)) =
    handleApiResponse (AudioTranscriptionApiResponse.ErrorResponse (ErrorResponse.Detailed d2))
  rw [happ d1, happ d2, hrender d1, hrender d2, h]

/-- C8 witness: the two singleton payloads differing only in the error-type
tag produce the same result. -/
theorem claim_C8_witness :
    processBody (detailedErrorBody [⟨["body"], "bad", "value_error"⟩]) =
      processBody (detailedErrorBody [⟨["body"], "bad", "type_error"⟩]) :=
  claim_C8 [⟨["body"], "bad", "value_error"⟩] [⟨["body"], "bad", "type_error"⟩] rfl

/-! ### C2 -/

/-- C2: the response decoder tries the shapes in fixed priority — success
record (`text` string field), then simple error (`detail` string), then
detailed error (`detail` list) — and the first structural match determines
the outcome: a matching success record yields `Ok` with that text; otherwise
a matching simple error fails with `ErrorResponse` carrying exactly that
detail string; otherwise a matching detailed error fails with the rendered
message. -/
theorem claim_C2 (fields : List (String × Json)) :
    (∀ text, lookupField fields "text" = some (Json.str text) →
      processBody (Json.obj fields) = Except.ok { text := text }) ∧
    (∀ detail, textFieldMatches fields = false →
      lookupField fields "detail" = some (Json.str detail) →
      processBody (Json.obj fields) =
        Except.error (AudioTranscriptionError.ErrorResponse detail)) ∧
    (∀ elems detail, textFieldMatches fields = false →
      lookupField fields "detail" = some (Json.arr elems) →
      decodeEach decodeErrorDetail elems = some detail →
      processBody (Json.obj fields) =
        Except.error (AudioTranscriptionError.ErrorResponse (String.intercalate ", "
          (detail.map fun d => String.intercalate "." d.loc ++ ": " ++ d.msg)))) := by
  refine ⟨fun text ht => ?_, fun detail hm hd => ?_, fun elems detail hm hd hdec => ?_⟩
  · simp [processBody, decodeApiResponse, decodeTranscriptionResponse, ht, Option.orElse,
      handleApiResponse]
  · have hnone := decodeTranscription_eq_none hm
    simp [processBody, decodeApiResponse, hnone, decodeErrorResponse, decodeSimpleError, hd,
      Option.orElse, handleApiResponse]
  · have hnone := decodeTranscription_eq_none hm
    simp [processBody, decodeApiResponse, hnone, decodeErrorResponse, decodeSimpleError,
      decodeDetailedError, hd, hdec, Option.orElse, handleApiResponse]

/-- C2 witness: the success record and the spec's simple-error example, with
the priority hypotheses discharged at those bodies. -/
theorem claim_C2_witness :
    processBody (Json.obj [("text", Json.str "hello")]) = Except.ok { text := "hello" } ∧
    processBody (Json.obj [("detail", Json.str "bad request")]) =
      Except.error (AudioTranscriptionError.ErrorResponse "bad request") :=
  ⟨(claim_C2 [("text", Json.str "hello")]).1 "hello" rfl,
   (claim_C2 [("detail", Json.str "bad request")]).2.1 "bad request" rfl rfl⟩

/-! ### C3 -/

/-- C3: a file-path source whose path does not exist makes
`audio_transcription` fail with `FileNotFoundError` carrying that path, with
an empty HTTP trace (zero network calls). -/
theorem claim_C3 (fs : String → Option (List Nat)) (respond : Form → Option Json)
    (language : Option String) (model : String) (prompt : Option String)
    (response_format : String) (path : String) (temperature : Option Rat)
    (timestamp_granularities : Option (List String))
    (h : fs path = none) :
    audioTranscriptionRun fs respond
      { language := language, model := model, prompt := prompt,
        response_format := response_format, source := FileSource.Filepath path,
        temperature := temperature, timestamp_granularities := timestamp_granularities } =
      (Except.error (AudioTranscriptionError.FileNotFoundError path), []) := by
  simp [audioTranscriptionRun, buildForm, h]

/-- C3 witness: the missing-path example request against an empty filesystem. -/
theorem claim_C3_witness :
    audioTranscriptionRun emptyFs simpleErrorNet examplePathRequest =
      (Except.error (AudioTranscriptionError.FileNotFoundError "/tmp/missing.mp3"), []) :=
  claim_C3 emptyFs simpleErrorNet none "openai/whisper-large-v3-turbo" none "json"
    "/tmp/missing.mp3" none (some ["word", "segment"]) rfl

/-! ### C9 -/

/-- Whatever the response body, the post-network outcome is never a
`FileNotFoundError`. -/
theorem processBody_not_fileNotFound (body : Json) :
    resultIsFileNotFound (processBody body) = false := by
  unfold processBody
  cases decodeApiResponse body with
  | none => rfl
  | some response =>
    cases response with
    | TranscriptionResponse r => rfl
    | ErrorResponse e => cases e <;> rfl

/-- Once the form is built, the run's outcome is never a `FileNotFoundError`,
whatever the network does. -/
theorem run_not_fileNotFound_of_buildForm_ok (fs : String → Option (List Nat))
    (respond : Form → Option Json) (request : AudioTranscriptionRequest) (form : Form)
    (h : buildForm fs request = Except.ok form) :
    resultIsFileNotFound (audioTranscriptionRun fs respond request).1 = false := by
  unfold audioTranscriptionRun
  rw [h]
  show resultIsFileNotFound
    (match respond form with
     | none => (Except.error (AudioTranscriptionError.ReqwestError "error sending request"),
                [HttpEvent.post AUDIO_TRANSCRIPTION_API_URL form])
     | some body => (processBody body, [HttpEvent.post AUDIO_TRANSCRIPTION_API_URL form])).1 = false
  cases respond form with
  | none => rfl
  | some body => exact processBody_not_fileNotFound body

/-- C9: a request whose source is the in-memory byte-buffer variant never
results in `FileNotFoundError`, for any buffer contents, file name, options,
filesystem and network behaviour. -/
theorem claim_C9 (fs : String → Option (List Nat)) (respond : Form → Option Json)
    (language : Option String) (model : String) (prompt : Option String)
    (response_format : String) (buffer : List Nat) (file_name : String)
    (temperature : Option Rat) (timestamp_granularities : Option (List String)) :
    resultIsFileNotFound
      (audioTranscriptionRun fs respond
        { language := language, model := model, prompt := prompt,
          response_format := response_format,
          source := FileSource.Bytes buffer file_name,
          temperature := temperature,
          timestamp_granularities := timestamp_granularities }).1 = false :=
  run_not_fileNotFound_of_buildForm_ok fs respond _ _ rfl

/-! ### C7 -/

/-- C7: a message list built from the system-message and user-message
constructors serializes to role-tagged JSON and deserializes back to the very
same messages — the serialize/deserialize round-trip on `Message` is the
identity for such lists. -/
theorem claim_C7 (system_content : String) (system_name : Option String)
    (user_content : String) (user_name : Option String) :
    messagesFromJson (Json.arr
      ([Message.System { content := system_content, name := system_name },
        Message.User { content := user_content, name := user_name }].map messageToJson)) =
      some [Message.System { content := system_content, name := system_name },
            Message.User { content := user_content, name := user_name }] := by
  cases system_name <;> cases user_name <;> rfl

/-! ### C6 -/

/-- Header-value character legality is the complement of the illegal class
(control characters other than tab, and DEL). -/
theorem legal_iff_not_illegal (c : Char) :
    isLegalHeaderChar c = !isIllegalHeaderChar c := by
  unfold isLegalHeaderChar isIllegalHeaderChar
  by_cases h9 : c.toNat = 9 <;> by_cases h32 : 32 ≤ c.toNat <;>
    by_cases h127 : c.toNat = 127 <;> simp_all

/-- A string passes the all-characters-legal test exactly when it contains no
illegal header character. -/
theorem all_legal_eq_not_any_illegal (s : String) :
    s.toList.all isLegalHeaderChar = !s.toList.any isIllegalHeaderChar := by
  induction s.toList with
  | nil => rfl
  | cons c cs ih =>
    simp only [List.all_cons, List.any_cons, ih, legal_iff_not_illegal, Bool.not_or]

/-- C6: client construction builds the value `"Bearer <token>"` and fails
with `InvalidHeaderValue` exactly when that value contains a character
illegal in an HTTP header value (a control character other than tab, or
DEL); for every token whose bearer value has no such character,
construction succeeds and the handle's default headers map `Authorization`
to exactly `"Bearer <token>"`. -/
theorem claim_C6 (token : String) :
    (DeepinfraClient.new token =
        Except.error (DeepinfraClientBuilderError.InvalidHeaderValue ("Bearer " ++ token)) ↔
      ("Bearer " ++ token).toList.any isIllegalHeaderChar = true) ∧
    (("Bearer " ++ token).toList.any isIllegalHeaderChar = false →
      DeepinfraClient.new token =
        Except.ok { default_headers := [("Authorization", "Bearer " ++ token)],
                    user_agent := APP_USER_AGENT }) := by
  have hall := all_legal_eq_not_any_illegal ("Bearer " ++ token)
  constructor
  · constructor
    · intro herr
      by_cases h : ("Bearer " ++ token).toList.all isLegalHeaderChar
      · exfalso
        have hok : DeepinfraClient.new token =
            Except.ok { default_headers := [("Authorization", "Bearer " ++ token)],
                        user_agent := APP_USER_AGENT } := by
          unfold DeepinfraClient.new headerValueFromStr
          rw [if_pos h]
        rw [hok] at herr
        exact Except.noConfusion herr
      · rw [Bool.not_eq_true] at h
        rw [h] at hall
        have htrue := congrArg (fun b => !b) hall
        simp only [Bool.not_not, Bool.not_false] at htrue
        exact htrue.symm
    · intro hany
      have h : ("Bearer " ++ token).toList.all isLegalHeaderChar = false := by
        rw [hall, hany]
        rfl
      unfold DeepinfraClient.new headerValueFromStr
      rw [if_neg (by rw [h]; exact Bool.false_ne_true)]
  · intro hnone
    have h : ("Bearer " ++ token).toList.all isLegalHeaderChar = true := by
      rw [hall, hnone]
      rfl
    unfold DeepinfraClient.new headerValueFromStr
    rw [if_pos h]

/-- C6 witness: a plain token constructs successfully with the exact
`Authorization` header, its no-illegal-character hypothesis discharged by
computation. -/
theorem claim_C6_witness :
    DeepinfraClient.new "my-token" =
      Except.ok { default_headers := [("Authorization", "Bearer my-token")],
                  user_agent := APP_USER_AGENT } :=
  (claim_C6 "my-token").2 (by decide)

/-! ### C5 -/

/-- The for-loop of repeated `timestamp_granularities[]` appends is one
append of the mapped list. -/
theorem foldl_gran (gs : List String) (form : Form) :
    gs.foldl (fun f g => f ++ [("timestamp_granularities[]", FormPart.text g)]) form =
      form ++ gs.map fun g => ("timestamp_granularities[]", FormPart.text g) := by
  induction gs generalizing form with
  | nil => simp
  | cons g gs ih => simp [ih]

/-- The optional-field appends amount to appending `optionsList`. -/
theorem appendOptions_eq (r : AudioTranscriptionRequest) (form : Form) :
    appendOptions r form = form ++ optionsList r := by
  unfold appendOptions optionsList
  cases r.language <;> cases r.prompt <;> cases r.temperature <;>
    cases r.timestamp_granularities <;> simp [foldl_gran]

/-- Filtering a mapped list whose every image fails the test gives nothing. -/
theorem filter_map_eq_nil {α β : Type} (f : α → β) (p : β → Bool) (l : List α)
    (h : ∀ a, p (f a) = false) : (l.map f).filter p = [] := by
  induction l with
  | nil => rfl
  | cons a rest ih => simp [List.filter_cons, h, ih]

/-- Filtering a mapped list whose every image passes the test keeps it all. -/
theorem filter_map_eq_self {α β : Type} (f : α → β) (p : β → Bool) (l : List α)
    (h : ∀ a, p (f a) = true) : (l.map f).filter p = l.map f := by
  induction l with
  | nil => rfl
  | cons a rest ih => simp [List.filter_cons, h, ih]

/-- `fieldsNamed` distributes over form concatenation. -/
theorem fieldsNamed_append (a b : Form) (key : String) :
    fieldsNamed (a ++ b) key = fieldsNamed a key ++ fieldsNamed b key := by
  simp [fieldsNamed, List.filter_append]

/-- The repeated granularity fields carry no other name. -/
theorem fieldsNamed_gran_map (gs : List String) (key : String)
    (h : ("timestamp_granularities[]" == key) = false) :
    fieldsNamed (gs.map fun g => ("timestamp_granularities[]", FormPart.text g)) key = [] :=
  filter_map_eq_nil _ _ gs fun _ => h

/-- The repeated granularity fields all carry the granularity name. -/
theorem fieldsNamed_gran_map_self (gs : List String) :
    fieldsNamed (gs.map fun g => ("timestamp_granularities[]", FormPart.text g))
        "timestamp_granularities[]" =
      gs.map fun g => ("timestamp_granularities[]", FormPart.text g) :=
  filter_map_eq_self _ _ gs fun _ => rfl

/-- An optional single-field part contributes under its own name only. -/
theorem fieldsNamed_optPart {α : Type} (o : Option α) (k : String) (f : α → FormPart)
    (key : String) :
    fieldsNamed ((o.map fun x => (k, f x)).toList) key =
      if (k == key) = true then (o.map fun x => (k, f x)).toList else [] := by
  cases o <;> by_cases h : (k == key) = true <;> simp [fieldsNamed, List.filter_cons, h]

/-- `optionsList` holds exactly the optional parts, under their own names. -/
theorem fieldsNamed_optionsList_language (r : AudioTranscriptionRequest) :
    fieldsNamed (optionsList r) "language" =
      (r.language.map fun l => ("language", FormPart.text l)).toList := by
  unfold optionsList
  rw [fieldsNamed_append, fieldsNamed_append, fieldsNamed_append,
    fieldsNamed_optPart, fieldsNamed_optPart, fieldsNamed_optPart,
    fieldsNamed_gran_map _ "language" rfl]
  simp

/-- The `prompt` part of `optionsList`. -/
theorem fieldsNamed_optionsList_prompt (r : AudioTranscriptionRequest) :
    fieldsNamed (optionsList r) "prompt" =
      (r.prompt.map fun p => ("prompt", FormPart.text p)).toList := by
  unfold optionsList
  rw [fieldsNamed_append, fieldsNamed_append, fieldsNamed_append,
    fieldsNamed_optPart, fieldsNamed_optPart, fieldsNamed_optPart,
    fieldsNamed_gran_map _ "prompt" rfl]
  simp

/-- The `temperature` part of `optionsList`. -/
theorem fieldsNamed_optionsList_temperature (r : AudioTranscriptionRequest) :
    fieldsNamed (optionsList r) "temperature" =
      (r.temperature.map fun t =>
        ("temperature", FormPart.text (temperatureToString t))).toList := by
  unfold optionsList
  rw [fieldsNamed_append, fieldsNamed_append, fieldsNamed_append,
    fieldsNamed_optPart, fieldsNamed_optPart, fieldsNamed_optPart,
    fieldsNamed_gran_map _ "temperature" rfl]
  simp

/-- The granularity part of `optionsList`, in list order. -/
theorem fieldsNamed_optionsList_gran (r : AudioTranscriptionRequest) :
    fieldsNamed (optionsList r) "timestamp_granularities[]" =
      (r.timestamp_granularities.getD []).map
        fun g => ("timestamp_granularities[]", FormPart.text g) := by
  unfold optionsList
  rw [fieldsNamed_append, fieldsNamed_append, fieldsNamed_append,
    fieldsNamed_optPart, fieldsNamed_optPart, fieldsNamed_optPart,
    fieldsNamed_gran_map_self]
  simp

/-- `optionsList` contributes nothing under any other name. -/
theorem fieldsNamed_optionsList_other (r : AudioTranscriptionRequest) (key : String)
    (h1 : ("language" == key) = false) (h2 : ("prompt" == key) = false)
    (h3 : ("temperature" == key) = false)
    (h4 : ("timestamp_granularities[]" == key) = false) :
    fieldsNamed (optionsList r) key = [] := by
  unfold optionsList
  rw [fieldsNamed_append, fieldsNamed_append, fieldsNamed_append,
    fieldsNamed_optPart, fieldsNamed_optPart, fieldsNamed_optPart,
    fieldsNamed_gran_map _ _ h4]
  simp [h1, h2, h3]

/-- The six field groups of a fully built form (any file part). -/
theorem builtForm_fields (r : AudioTranscriptionRequest) (fp : FormPart) :
    fieldsNamed (appendOptions r
        ([("model", FormPart.text r.model),
          ("response_format", FormPart.text r.response_format)] ++ [("file", fp)])) "model" =
      [("model", FormPart.text r.model)] ∧
    fieldsNamed (appendOptions r
        ([("model", FormPart.text r.model),
          ("response_format", FormPart.text r.response_format)] ++ [("file", fp)]))
        "response_format" =
      [("response_format", FormPart.text r.response_format)] ∧
    fieldsNamed (appendOptions r
        ([("model", FormPart.text r.model),
          ("response_format", FormPart.text r.response_format)] ++ [("file", fp)])) "language" =
      (r.language.map fun l => ("language", FormPart.text l)).toList ∧
    fieldsNamed (appendOptions r
        ([("model", FormPart.text r.model),
          ("response_format", FormPart.text r.response_format)] ++ [("file", fp)])) "prompt" =
      (r.prompt.map fun p => ("prompt", FormPart.text p)).toList ∧
    fieldsNamed (appendOptions r
        ([("model", FormPart.text r.model),
          ("response_format", FormPart.text r.response_format)] ++ [("file", fp)]))
        "temperature" =
      (r.temperature.map fun t =>
        ("temperature", FormPart.text (temperatureToString t))).toList ∧
    fieldsNamed (appendOptions r
        ([("model", FormPart.text r.model),
          ("response_format", FormPart.text r.response_format)] ++ [("file", fp)]))
        "timestamp_granularities[]" =
      (r.timestamp_granularities.getD []).map
        fun g => ("timestamp_granularities[]", FormPart.text g) := by
  refine ⟨?_, ?_, ?_, ?_, ?_, ?_⟩ <;> rw [appendOptions_eq, fieldsNamed_append]
  · rw [fieldsNamed_optionsList_other r "model" rfl rfl rfl rfl]
    simp [fieldsNamed]
  · rw [fieldsNamed_optionsList_other r "response_format" rfl rfl rfl rfl]
    simp [fieldsNamed]
  · rw [fieldsNamed_optionsList_language]
    simp [fieldsNamed]
  · rw [fieldsNamed_optionsList_prompt]
    simp [fieldsNamed]
  · rw [fieldsNamed_optionsList_temperature]
    simp [fieldsNamed]
  · rw [fieldsNamed_optionsList_gran]
    simp [fieldsNamed]

/-- C5: every successfully built multipart form carries exactly one `model`
and one `response_format` text field; carries a `language`, `prompt` and
(stringified) `temperature` field exactly when the corresponding option is
set, with its value; and carries one repeated `timestamp_granularities[]`
text field per element of the granularities list, in list order. -/
theorem claim_C5 (fs : String → Option (List Nat)) (request : AudioTranscriptionRequest)
    (form : Form) (h : buildForm fs request = Except.ok form) :
    fieldsNamed form "model" = [("model", FormPart.text request.model)] ∧
    fieldsNamed form "response_format" =
      [("response_format", FormPart.text request.response_format)] ∧
    fieldsNamed form "language" =
      (request.language.map fun l => ("language", FormPart.text l)).toList ∧
    fieldsNamed form "prompt" =
      (request.prompt.map fun p => ("prompt", FormPart.text p)).toList ∧
    fieldsNamed form "temperature" =
      (request.temperature.map fun t =>
        ("temperature", FormPart.text (temperatureToString t))).toList ∧
    fieldsNamed form "timestamp_granularities[]" =
      (request.timestamp_granularities.getD []).map
        fun g => ("timestamp_granularities[]", FormPart.text g) := by
  unfold buildForm at h
  split at h
  · split at h
    · simp at h
    · rw [Except.ok.injEq] at h
      subst h
      exact builtForm_fields request _
  · rw [Except.ok.injEq] at h
    subst h
    exact builtForm_fields request _

/-- C5 witness: the byte-buffer example (language set) and the granularity
example (`["word","segment"]` giving two repeated fields in order), their
build hypotheses discharged by computation. -/
theorem claim_C5_witness :
    fieldsNamed exampleBytesForm "language" = [("language", FormPart.text "en")] ∧
    fieldsNamed exampleGranForm "timestamp_granularities[]" =
      [("timestamp_granularities[]", FormPart.text "word"),
       ("timestamp_granularities[]", FormPart.text "segment")] :=
  ⟨(claim_C5 emptyFs exampleBytesRequest exampleBytesForm rfl).2.2.1,
   (claim_C5 emptyFs exampleGranRequest exampleGranForm rfl).2.2.2.2.2⟩

/-! ### C1 -/

/-- C1 counterexample: the claim says the serialized body contains no key for
an unset optional field; but for the defaults-built request with `seed` unset
the serialized body does contain the key `seed` — with value `null` (the
struct has no `skip_serializing_if`, so serde emits `None` as `null`). -/
theorem claim_C1_counterexample :
    exampleChatRequest.seed = none ∧
    jsonHasKey (serializeChatCompletionRequest exampleChatRequest) "seed" = true ∧
    jsonGetKey (serializeChatCompletionRequest exampleChatRequest) "seed" = some Json.null :=
  ⟨rfl, rfl, rfl⟩

/-- C1 (amended): for every `ChatCompletionRequest`, each optional field the
caller did not set (`response_format`, `seed`, `stop`, `tool_choice`,
`tools`, `user`) is present in the serialized JSON body as a key whose value
is `null` — emitted as null, not omitted. -/
theorem claim_C1_amended (r : ChatCompletionRequest) :
    (r.response_format = none →
      jsonGetKey (serializeChatCompletionRequest r) "response_format" = some Json.null) ∧
    (r.seed = none →
      jsonGetKey (serializeChatCompletionRequest r) "seed" = some Json.null) ∧
    (r.stop = none →
      jsonGetKey (serializeChatCompletionRequest r) "stop" = some Json.null) ∧
    (r.tool_choice = none →
      jsonGetKey (serializeChatCompletionRequest r) "tool_choice" = some Json.null) ∧
    (r.tools = none →
      jsonGetKey (serializeChatCompletionRequest r) "tools" = some Json.null) ∧
    (r.user = none →
      jsonGetKey (serializeChatCompletionRequest r) "user" = some Json.null) := by
  obtain ⟨fp, mt, ms, mp, mo, n, pp, rp, rf, seed, stop, stream, temp, tc, tools, tk, tp, user⟩ := r
  refine ⟨fun h => ?_, fun h => ?_, fun h => ?_, fun h => ?_, fun h => ?_, fun h => ?_⟩ <;>
    (subst h; rfl)

/-- C1 witness: the defaults-built request has all six optional fields unset
and each serializes to a `null`-valued key. -/
theorem claim_C1_witness :
    jsonGetKey (serializeChatCompletionRequest exampleChatRequest) "response_format" =
      some Json.null ∧
    jsonGetKey (serializeChatCompletionRequest exampleChatRequest) "seed" = some Json.null ∧
    jsonGetKey (serializeChatCompletionRequest exampleChatRequest) "stop" = some Json.null ∧
    jsonGetKey (serializeChatCompletionRequest exampleChatRequest) "tool_choice" =
      some Json.null ∧
    jsonGetKey (serializeChatCompletionRequest exampleChatRequest) "tools" = some Json.null ∧
    jsonGetKey (serializeChatCompletionRequest exampleChatRequest) "user" = some Json.null :=
  ⟨(claim_C1_amended exampleChatRequest).1 rfl,
   (claim_C1_amended exampleChatRequest).2.1 rfl,
   (claim_C1_amended exampleChatRequest).2.2.1 rfl,
   (claim_C1_amended exampleChatRequest).2.2.2.1 rfl,
   (claim_C1_amended exampleChatRequest).2.2.2.2.1 rfl,
   (claim_C1_amended exampleChatRequest).2.2.2.2.2 rfl⟩

end Deepinfra
